import Mathlib

/-!
Verification of the firewatch core against its specification.

The development shallowly embeds the core of the repository: the geometry
kernel and proximity engine from `src/lib/geo-utils.ts`, the action
classifier from `src/lib/utils.ts`, the alert engine from
`src/hooks/use-alerts.ts` (including `useFireEvents`), and the retrying
fetch client from `src/lib/vic-emergency.ts`.  Machine floats are modelled
over the rationals, the JavaScript `Infinity` by the top element of
`WithTop`, and the two turf.js geometry primitives the kernel delegates to
are parameters of the embedding.
-/

namespace Firewatch

/-- JavaScript substring test `hay.includes(needle)` on character lists. -/
def charsContain (needle : List Char) : List Char → Bool
  | [] => needle.isEmpty
  | c :: t => needle.isPrefixOf (c :: t) || charsContain needle t

/-- JavaScript `s.includes(sub)`. -/
def jsIncludes (s sub : String) : Bool := charsContain sub.data s.data

/-- JavaScript `s.toLowerCase()`, restricted to the character ranges the
repository uses. -/
def jsToLower (s : String) : String := ⟨s.data.map Char.toLower⟩

/-- JavaScript `s || d` on an optional string: the default replaces both a
missing and an empty (falsy) string. -/
def jsOrDefault (s : Option String) (d : String) : String :=
  match s with
  | none => d
  | some v => if v = "" then d else v

/-- Function `getActionPriority` from `src/lib/utils.ts`. -/
def getActionPriority (action : Option String) : Nat :=
  match action with
  | none => 0
  | some a =>
    let normalizedAction := jsToLower a
    if jsIncludes normalizedAction "shelter" then 3
    else if jsIncludes normalizedAction "leave immediately" then 2
    else if jsIncludes normalizedAction "leave" then 1
    else 0

/-- A longitude-latitude pair, modelled over the rationals. -/
abbrev Point := ℚ × ℚ

/-- A distance in kilometres; the top element models the JavaScript
`Infinity`. -/
abbrev Dist := WithTop ℚ

/-- The two turf.js primitives the geometry kernel delegates to: the
point-in-ring test `booleanPointInPolygon` (applied to an explicitly closed
ring) and the great-circle `distance` between two points in kilometres.
Both are opaque to the repository code, so they are parameters of the
embedding. -/
structure Turf where
  booleanPointInPolygon : Point → List Point → Bool
  distance : Point → Point → ℚ

/-- Ring closure as done inline in `geo-utils.ts`: append the first vertex
when the last one differs from it. -/
def closeRing (ring : List Point) : List Point :=
  match ring.head?, ring.getLast? with
  | some f, some l => if f ≠ l then ring ++ [f] else ring
  | _, _ => ring

/-- Function `isPointInPolygon` from `src/lib/geo-utils.ts`. -/
def isPointInPolygon (T : Turf) (coords : Point) (polygonCoords : List Point) : Bool :=
  if polygonCoords.length < 3 then false
  else T.booleanPointInPolygon coords (closeRing polygonCoords)

/-- Function `calculateDistance` from `src/lib/geo-utils.ts`. -/
def calculateDistance (T : Turf) (a b : Point) : ℚ := T.distance a b

/-- Function `distanceToPolygon` from `src/lib/geo-utils.ts`: infinity for a
degenerate ring, zero inside, otherwise the running minimum of the vertex
distances. -/
def distanceToPolygon (T : Turf) (coords : Point) (polygonCoords : List Point) : Dist :=
  if polygonCoords.length < 3 then ⊤
  else if isPointInPolygon T coords polygonCoords then 0
  else polygonCoords.foldl
    (fun minDist v => min minDist (calculateDistance T coords v : Dist)) ⊤

theorem foldl_min_le_init (l : List Dist) (a : Dist) : l.foldl min a ≤ a := by
  induction l generalizing a with
  | nil => simp
  | cons c t ih => exact le_trans (ih (min a c)) (min_le_left a c)

theorem foldl_min_le_mem (l : List Dist) (a : Dist) :
    ∀ v ∈ l, l.foldl min a ≤ v := by
  induction l generalizing a with
  | nil => intro v hv; cases hv
  | cons c t ih =>
    intro v hv
    rcases List.mem_cons.mp hv with h | h
    · subst h
      exact le_trans (foldl_min_le_init t (min a v)) (min_le_right a v)
    · exact ih (min a c) v h

theorem foldl_min_mem (l : List Dist) (a : Dist) :
    l.foldl min a = a ∨ l.foldl min a ∈ l := by
  induction l generalizing a with
  | nil => left; rfl
  | cons c t ih =>
    rcases ih (min a c) with h | h
    · rcases min_choice a c with hm | hm
      · left; simpa [hm] using h
      · right; simp only [List.foldl_cons]
        exact List.mem_cons.mpr (Or.inl (h.trans hm))
    · right; exact List.mem_cons.mpr (Or.inr h)

/-- A concrete turf instantiation used by concrete evaluations: the distance
of two points is read off as the longitude of the second point (no rational
arithmetic, so the kernel can evaluate it), and the point-in-ring test
always answers false. -/
def turfModel : Turf where
  booleanPointInPolygon := fun _ _ => false
  distance := fun _ b => b.1

/-- A concrete turf instantiation whose point-in-ring test always answers
true. -/
def turfInside : Turf where
  booleanPointInPolygon := fun _ _ => true
  distance := fun _ b => b.1

/-- C4: getActionPriority classifies the lowercased action text by the
ordered substring rules, shelter before leave immediately before leave,
with 0 for a missing action or no match, and the shelter rule wins over
any leave rule, so "Shelter In Place Now" yields 3. -/
theorem c4_action_priority_rules :
    getActionPriority none = 0 ∧
    (∀ s : String, jsIncludes (jsToLower s) "shelter" = true →
      getActionPriority (some s) = 3) ∧
    (∀ s : String, jsIncludes (jsToLower s) "shelter" = false →
      jsIncludes (jsToLower s) "leave immediately" = true →
      getActionPriority (some s) = 2) ∧
    (∀ s : String, jsIncludes (jsToLower s) "shelter" = false →
      jsIncludes (jsToLower s) "leave immediately" = false →
      jsIncludes (jsToLower s) "leave" = true →
      getActionPriority (some s) = 1) ∧
    (∀ s : String, jsIncludes (jsToLower s) "shelter" = false →
      jsIncludes (jsToLower s) "leave immediately" = false →
      jsIncludes (jsToLower s) "leave" = false →
      getActionPriority (some s) = 0) ∧
    getActionPriority (some "Shelter In Place Now") = 3 := by
  refine ⟨rfl, ?_, ?_, ?_, ?_, by decide⟩
  · intro s h1; simp [getActionPriority, h1]
  · intro s h1 h2; simp [getActionPriority, h1, h2]
  · intro s h1 h2 h3; simp [getActionPriority, h1, h2, h3]
  · intro s h1 h2 h3; simp [getActionPriority, h1, h2, h3]

/-- Witness for C4: the leave-immediately rule is not shadowed on the
concrete action text of the specification. -/
theorem c4_action_priority_rules_witness :
    getActionPriority (some "Leave Immediately") = 2 :=
  c4_action_priority_rules.2.2.1 "Leave Immediately" (by decide) (by decide)

/-- C8: distanceToPolygon is infinite on a ring with fewer than 3 vertices,
zero when the point is inside, and otherwise the minimum great-circle
distance from the point to the ring vertices. -/
theorem c8_distance_to_polygon (T : Turf) (p : Point) (ring : List Point) :
    (ring.length < 3 → distanceToPolygon T p ring = ⊤) ∧
    (3 ≤ ring.length → isPointInPolygon T p ring = true →
      distanceToPolygon T p ring = 0) ∧
    (3 ≤ ring.length → isPointInPolygon T p ring = false →
      distanceToPolygon T p ring ∈
        ring.map (fun v => (calculateDistance T p v : Dist)) ∧
      ∀ v ∈ ring, distanceToPolygon T p ring ≤ (calculateDistance T p v : Dist)) := by
  refine ⟨fun h => by simp [distanceToPolygon, h], fun h hin => ?_, fun h hout => ?_⟩
  · simp [distanceToPolygon, Nat.not_lt.mpr h, hin]
  · have hne : ring ≠ [] := by
      intro hnil; rw [hnil] at h; simp at h
    have hd : distanceToPolygon T p ring =
        (ring.map (fun v => (calculateDistance T p v : Dist))).foldl min ⊤ := by
      simp [distanceToPolygon, Nat.not_lt.mpr h, hout, List.foldl_map]
    constructor
    · rcases foldl_min_mem (ring.map fun v => (calculateDistance T p v : Dist)) ⊤ with
        htop | hmem
      · exfalso
        obtain ⟨v, hv⟩ := List.exists_mem_of_ne_nil ring hne
        have hle := foldl_min_le_mem (ring.map fun v => (calculateDistance T p v : Dist)) ⊤
          (calculateDistance T p v : Dist) (List.mem_map_of_mem _ hv)
        rw [htop] at hle
        exact WithTop.coe_ne_top (top_le_iff.mp hle)
      · rw [hd]; exact hmem
    · intro v hv
      rw [hd]
      exact foldl_min_le_mem _ _ _ (List.mem_map_of_mem _ hv)

/-- Witness for C8: on a concrete triangle with the point outside, the
computed distance is bounded by the distance to the first vertex. -/
theorem c8_distance_to_polygon_witness :
    distanceToPolygon turfModel (0, 0) ([(1, 0), (2, 0), (0, 3)] : List Point) ≤
      ((1 : ℚ) : Dist) :=
  le_of_le_of_eq
    (((c8_distance_to_polygon turfModel (0, 0) ([(1, 0), (2, 0), (0, 3)] : List Point)).2.2
      (by decide) (by rfl)).2 (1, 0) (by decide))
    (by decide)

/-- One hazard event, with the fields the core reads; ids are modelled as
naturals. -/
structure EmergencyEvent where
  id : Nat
  updated : String
  name : String
  location : String
  action : Option String
  polygon : Option (List Point)
deriving DecidableEq

/-- Filter condition of `calculateProximity`: the event has a polygon with
at least 3 vertices. -/
def hasUsablePolygon (e : EmergencyEvent) : Bool :=
  match e.polygon with
  | some poly => decide (3 ≤ poly.length)
  | none => false

/-- Interface `ProximityResult` from `src/lib/geo-utils.ts`. -/
structure ProximityResult where
  event : EmergencyEvent
  distance : Dist
  isInside : Bool
  actionPriority : Nat
deriving DecidableEq

/-- Boolean rendering of the comparator passed to the sort in
`calculateProximity`: `proxLE a b` holds when the comparator orders `a` at
or before `b` (inside first, then action priority descending, then distance
ascending). -/
def proxLE (a b : ProximityResult) : Bool :=
  if a.isInside ≠ b.isInside then a.isInside
  else if a.actionPriority ≠ b.actionPriority then
    decide (b.actionPriority < a.actionPriority)
  else decide (a.distance ≤ b.distance)

/-- The order induced by the comparator. -/
def ProxOrder (a b : ProximityResult) : Prop := proxLE a b = true

instance : DecidableRel ProxOrder := fun a b =>
  inferInstanceAs (Decidable (proxLE a b = true))

theorem proxLE_iff (a b : ProximityResult) :
    proxLE a b = true ↔
      (a.isInside = true ∧ b.isInside = false) ∨
      (a.isInside = b.isInside ∧ b.actionPriority < a.actionPriority) ∨
      (a.isInside = b.isInside ∧ a.actionPriority = b.actionPriority ∧
        a.distance ≤ b.distance) := by
  unfold proxLE
  by_cases h1 : a.isInside = b.isInside
  · by_cases h2 : a.actionPriority = b.actionPriority
    · simp [h1, h2]
    · simp [h1, h2]
  · simp [h1]
    cases ha : a.isInside <;> cases hb : b.isInside <;> simp_all

theorem proxLE_total (a b : ProximityResult) : ProxOrder a b ∨ ProxOrder b a := by
  unfold ProxOrder
  rw [proxLE_iff, proxLE_iff]
  by_cases h1 : a.isInside = b.isInside
  · by_cases h2 : a.actionPriority = b.actionPriority
    · rcases le_total a.distance b.distance with h | h
      · exact Or.inl (Or.inr (Or.inr ⟨h1, h2, h⟩))
      · exact Or.inr (Or.inr (Or.inr ⟨h1.symm, h2.symm, h⟩))
    · rcases Nat.lt_or_ge b.actionPriority a.actionPriority with h | h
      · exact Or.inl (Or.inr (Or.inl ⟨h1, h⟩))
      · have h3 : a.actionPriority < b.actionPriority :=
          lt_of_le_of_ne h fun he => h2 he
        exact Or.inr (Or.inr (Or.inl ⟨h1.symm, h3⟩))
  · cases ha : a.isInside <;> cases hb : b.isInside
    · exact absurd (ha.trans hb.symm) h1
    · exact Or.inr (Or.inl ⟨rfl, rfl⟩)
    · exact Or.inl (Or.inl ⟨rfl, rfl⟩)
    · exact absurd (ha.trans hb.symm) h1

theorem proxLE_trans (a b c : ProximityResult) (hab : ProxOrder a b)
    (hbc : ProxOrder b c) : ProxOrder a c := by
  unfold ProxOrder at hab hbc ⊢
  rw [proxLE_iff] at hab hbc ⊢
  rcases hab with ⟨ha1, hb1⟩ | ⟨hi1, hp1⟩ | ⟨hi1, hp1, hd1⟩ <;>
    rcases hbc with ⟨hb2, hc2⟩ | ⟨hi2, hp2⟩ | ⟨hi2, hp2, hd2⟩
  · exact absurd (hb1.symm.trans hb2) (by simp)
  · exact Or.inl ⟨ha1, hi2.symm.trans hb1⟩
  · exact Or.inl ⟨ha1, hi2.symm.trans hb1⟩
  · exact Or.inl ⟨hi1.trans hb2, hc2⟩
  · exact Or.inr (Or.inl ⟨hi1.trans hi2, lt_trans hp2 hp1⟩)
  · exact Or.inr (Or.inl ⟨hi1.trans hi2, by omega⟩)
  · exact Or.inl ⟨hi1.trans hb2, hc2⟩
  · exact Or.inr (Or.inl ⟨hi1.trans hi2, by omega⟩)
  · exact Or.inr (Or.inr ⟨hi1.trans hi2, hp1.trans hp2, le_trans hd1 hd2⟩)

instance : IsTotal ProximityResult ProxOrder := ⟨proxLE_total⟩

instance : IsTrans ProximityResult ProxOrder := ⟨proxLE_trans⟩

/-- Mapping step of `calculateProximity`: the proximity record computed for
each event that passed the polygon filter. -/
def proximityItems (T : Turf) (location : Point) (events : List EmergencyEvent) :
    List ProximityResult :=
  (events.filter hasUsablePolygon).map fun event =>
    let poly := event.polygon.getD []
    let isInside := isPointInPolygon T location poly
    { event := event
      distance := if isInside then 0 else distanceToPolygon T location poly
      isInside := isInside
      actionPriority := getActionPriority event.action }

/-- Function `calculateProximity` from `src/lib/geo-utils.ts`: filter to
events with a usable polygon, compute proximity records, sort them with the
comparator. -/
def calculateProximity (T : Turf) (location : Point) (events : List EmergencyEvent) :
    List ProximityResult :=
  List.insertionSort ProxOrder (proximityItems T location events)

/-- Function `getNearestDanger` from `src/lib/geo-utils.ts`. -/
def getNearestDanger (T : Turf) (location : Point) (events : List EmergencyEvent) :
    Option ProximityResult :=
  (calculateProximity T location events).head?

theorem proxOrder_imp (x y : ProximityResult) (hxy : ProxOrder x y) :
    (y.isInside = true → x.isInside = true) ∧
    (x.isInside = y.isInside → y.actionPriority ≤ x.actionPriority) ∧
    (x.isInside = y.isInside → x.actionPriority = y.actionPriority →
      x.distance ≤ y.distance) := by
  rcases (proxLE_iff x y).mp hxy with ⟨hx, hy⟩ | ⟨hi, hp⟩ | ⟨hi, hp, hd⟩
  · refine ⟨fun _ => hx, fun hxy2 => ?_, fun hxy2 _ => ?_⟩
    · exact absurd (hx.symm.trans (hxy2.trans hy)) (by simp)
    · exact absurd (hx.symm.trans (hxy2.trans hy)) (by simp)
  · exact ⟨fun hy => hi.trans hy, fun _ => le_of_lt hp, fun _ hp2 => by omega⟩
  · exact ⟨fun hy => hi.trans hy, fun _ => le_of_eq hp.symm, fun _ _ => hd⟩

/-- C2: calculateProximity returns exactly the hazards with a usable polygon
(at least 3 vertices), sorted so that no inside result follows an outside
result, action priority is non-increasing among equal isInside, and distance
is non-decreasing among results equal on both. -/
theorem c2_rank_filter_and_order (T : Turf) (location : Point)
    (events : List EmergencyEvent) :
    ((calculateProximity T location events).map fun r => r.event).Perm
      (events.filter hasUsablePolygon) ∧
    (calculateProximity T location events).Pairwise fun a b =>
      (b.isInside = true → a.isInside = true) ∧
      (a.isInside = b.isInside → b.actionPriority ≤ a.actionPriority) ∧
      (a.isInside = b.isInside → a.actionPriority = b.actionPriority →
        a.distance ≤ b.distance) := by
  constructor
  · have h := (List.perm_insertionSort ProxOrder
      (proximityItems T location events)).map fun r => r.event
    have he : (proximityItems T location events).map (fun r => r.event) =
        events.filter hasUsablePolygon := by
      unfold proximityItems
      rw [List.map_map]
      show (events.filter hasUsablePolygon).map (fun e => e) =
        events.filter hasUsablePolygon
      simp
    unfold calculateProximity
    rw [← he]
    exact h
  · have hs := List.sorted_insertionSort ProxOrder (proximityItems T location events)
    unfold calculateProximity
    exact List.Pairwise.imp (fun {x y} h => proxOrder_imp x y h) hs

/-- A concrete sample event used by concrete evaluations. -/
def sampleEvent : EmergencyEvent where
  id := 1
  updated := "t1"
  name := "Fire A"
  location := "Somewhere"
  action := some "Leave Immediately"
  polygon := some [(1, 0), (2, 0), (0, 3)]

/-- Witness for C2 at a concrete input. -/
theorem c2_rank_filter_and_order_witness :
    ((calculateProximity turfModel (0, 0) [sampleEvent]).map fun r => r.event).Perm
      ([sampleEvent].filter hasUsablePolygon) :=
  (c2_rank_filter_and_order turfModel (0, 0) [sampleEvent]).1

/-- Alert severity levels. -/
inductive Severity
  | critical
  | warning
  | info
deriving DecidableEq

/-- Alert type tags. -/
inductive AlertKind
  | proximity
  | zoneChange
  | newWarning
deriving DecidableEq

/-- Interface `Alert` from `src/hooks/use-alerts.ts`; ids are modelled as
naturals drawn from a monotone generator. -/
structure Alert where
  id : Nat
  type : AlertKind
  severity : Severity
  title : String
  message : String
  timestamp : Nat
  eventId : Option Nat
  dismissed : Bool
deriving DecidableEq

/-- Function `dismissAlert` from `src/hooks/use-alerts.ts`. -/
def dismissAlert (id : Nat) (alerts : List Alert) : List Alert :=
  alerts.map fun a => if a.id = id then { a with dismissed := true } else a

/-- C10: dismissAlert preserves length, order, and all fields except that
the alert with the given id gets dismissed set to true; when no alert
carries the id the list is unchanged; and the operation is idempotent. -/
theorem c10_dismiss_frame (id : Nat) (alerts : List Alert) :
    (dismissAlert id alerts).length = alerts.length ∧
    (∀ i : Nat, (dismissAlert id alerts)[i]? =
      (alerts[i]?.map fun a =>
        if a.id = id then { a with dismissed := true } else a)) ∧
    (id ∉ alerts.map (fun a => a.id) → dismissAlert id alerts = alerts) ∧
    dismissAlert id (dismissAlert id alerts) = dismissAlert id alerts := by
  refine ⟨by simp [dismissAlert], fun i => by simp [dismissAlert], ?_, ?_⟩
  · intro hmem
    have hne : ∀ a ∈ alerts,
        (if a.id = id then { a with dismissed := true } else a) = a := by
      intro a ha
      have : a.id ≠ id := fun he =>
        hmem (he ▸ List.mem_map_of_mem (fun a => a.id) ha)
      simp [this]
    calc dismissAlert id alerts = alerts.map (fun a => a) :=
          List.map_congr_left hne
      _ = alerts := by simp
  · unfold dismissAlert
    rw [List.map_map]
    apply List.map_congr_left
    intro a _
    by_cases h : a.id = id <;> simp [Function.comp, h]

/-- Witness for C10: dismissing an absent id on a concrete list leaves the
list unchanged. -/
theorem c10_dismiss_frame_witness :
    dismissAlert 7
      [{ id := 1, type := AlertKind.proximity, severity := Severity.warning,
         title := "t", message := "m", timestamp := 0, eventId := none,
         dismissed := false }] =
      [{ id := 1, type := AlertKind.proximity, severity := Severity.warning,
         title := "t", message := "m", timestamp := 0, eventId := none,
         dismissed := false }] :=
  (c10_dismiss_frame 7 _).2.2.1 (by decide)

/-- Auto-dismiss timeout for info alerts, from `src/hooks/use-alerts.ts`. -/
def AUTO_DISMISS_INFO : Nat := 30000

/-- Auto-dismiss timeout for warning alerts. -/
def AUTO_DISMISS_WARNING : Nat := 60000

/-- The payload passed to `addAlert` (the alert minus id, timestamp and
dismissed). -/
structure AlertSpec where
  type : AlertKind
  severity : Severity
  title : String
  message : String
  eventId : Option Nat
deriving DecidableEq

/-- One pending auto-dismiss callback scheduled by `addAlert`, recorded as
the id of the alert it will dismiss and the absolute time it fires. -/
structure Timer where
  alertId : Nat
  fireAt : Nat
deriving DecidableEq

/-- State owned by `useAlerts`: the alert list, the id generator (the
time-and-random id string is modelled as a monotone counter, keeping the
generator property that an id is never reused), and the pending timers. -/
structure AlertsState where
  activeAlerts : List Alert
  nextId : Nat
  timers : List Timer
deriving DecidableEq

/-- Function `addAlert` from `src/hooks/use-alerts.ts`: build the alert,
prepend it keeping the most recent 50, and schedule the auto-dismiss
timeout for non-critical severities. -/
def addAlert (now : Nat) (alert : AlertSpec) (st : AlertsState) :
    AlertsState × Alert :=
  let newAlert : Alert :=
    { id := st.nextId, type := alert.type, severity := alert.severity,
      title := alert.title, message := alert.message,
      timestamp := now, eventId := alert.eventId, dismissed := false }
  let alerts := (newAlert :: st.activeAlerts).take 50
  let timers :=
    if alert.severity ≠ Severity.critical then
      st.timers ++ [{ alertId := newAlert.id,
                      fireAt := now + (if alert.severity = Severity.warning then
                        AUTO_DISMISS_WARNING else AUTO_DISMISS_INFO) }]
    else st.timers
  ({ activeAlerts := alerts, nextId := st.nextId + 1, timers := timers }, newAlert)

/-- The timeout callback body scheduled by `addAlert`: flip dismissed on the
alert it captured. -/
def fireTimer (t : Timer) (alerts : List Alert) : List Alert :=
  alerts.map fun a => if a.id = t.alertId then { a with dismissed := true } else a

/-- Derived list `undismissedAlerts` from `src/hooks/use-alerts.ts`: the
consumer-visible alerts. -/
def undismissedAlerts (alerts : List Alert) : List Alert :=
  alerts.filter fun a => !a.dismissed

/-- C7: every added alert gets a fresh id and is prepended with at most the
50 most recent retained; info alerts schedule a dismissal at 30 s and
warning alerts at 60 s while critical alerts schedule none, so no timer
ever targets a critical alert; firing a timer flips dismissed to true; and
the visible list is exactly the undismissed sublist. -/
theorem c7_alert_lifecycle (now : Nat) (spec : AlertSpec) (st : AlertsState) :
    ((∀ a ∈ st.activeAlerts, a.id < st.nextId) →
      (addAlert now spec st).2.id ∉ st.activeAlerts.map fun a => a.id) ∧
    (addAlert now spec st).1.activeAlerts =
      ((addAlert now spec st).2 :: st.activeAlerts).take 50 ∧
    (addAlert now spec st).1.activeAlerts.length ≤ 50 ∧
    (spec.severity = Severity.info →
      (addAlert now spec st).1.timers = st.timers ++
        [{ alertId := (addAlert now spec st).2.id, fireAt := now + AUTO_DISMISS_INFO }]) ∧
    (spec.severity = Severity.warning →
      (addAlert now spec st).1.timers = st.timers ++
        [{ alertId := (addAlert now spec st).2.id, fireAt := now + AUTO_DISMISS_WARNING }]) ∧
    (spec.severity = Severity.critical →
      (addAlert now spec st).1.timers = st.timers) ∧
    (addAlert now spec st).2.dismissed = false ∧
    ((∀ t ∈ st.timers, t.alertId < st.nextId) →
      (∀ a ∈ st.activeAlerts, a.id < st.nextId) →
      (∀ t ∈ st.timers, ∀ a ∈ st.activeAlerts, a.id = t.alertId →
        a.severity ≠ Severity.critical) →
      ∀ t ∈ (addAlert now spec st).1.timers,
        ∀ a ∈ (addAlert now spec st).1.activeAlerts, a.id = t.alertId →
          a.severity ≠ Severity.critical) ∧
    (∀ (t : Timer) (l : List Alert), ∀ a ∈ l, a.id = t.alertId →
      { a with dismissed := true } ∈ fireTimer t l) ∧
    (∀ (l : List Alert) (a : Alert),
      a ∈ undismissedAlerts l ↔ a ∈ l ∧ a.dismissed = false) := by
  have hna : (addAlert now spec st).2 =
      { id := st.nextId, type := spec.type, severity := spec.severity,
        title := spec.title, message := spec.message, timestamp := now,
        eventId := spec.eventId, dismissed := false } := rfl
  have htimers : (addAlert now spec st).1.timers =
      (if spec.severity ≠ Severity.critical then
        st.timers ++ [{ alertId := st.nextId,
                        fireAt := now + (if spec.severity = Severity.warning then
                          AUTO_DISMISS_WARNING else AUTO_DISMISS_INFO) }]
      else st.timers) := rfl
  refine ⟨?_, rfl, ?_, ?_, ?_, ?_, rfl, ?_, ?_, ?_⟩
  · intro hlt hmem
    rw [hna] at hmem
    rcases List.mem_map.mp hmem with ⟨a, ha, hid⟩
    exact absurd (hid ▸ hlt a ha) (lt_irrefl _)
  · have : (addAlert now spec st).1.activeAlerts =
        ((addAlert now spec st).2 :: st.activeAlerts).take 50 := rfl
    rw [this]
    simp [List.length_take]
  · intro hs
    rw [htimers, hna, hs]
    simp
  · intro hs
    rw [htimers, hna, hs]
    simp
  · intro hs
    rw [htimers, hs]
    simp
  · intro ht ha hcrit t htmem a hamem haid
    have hamem2 : a = (addAlert now spec st).2 ∨ a ∈ st.activeAlerts := by
      have h2 : a ∈ ((addAlert now spec st).2 :: st.activeAlerts).take 50 := hamem
      exact List.mem_cons.mp (List.mem_of_mem_take h2)
    rw [htimers] at htmem
    by_cases hc : spec.severity = Severity.critical
    · rw [if_neg (by simp [hc])] at htmem
      rcases hamem2 with rfl | hold
      · rw [hna] at haid
        simp only at haid
        exact absurd (haid ▸ ht t htmem) (lt_irrefl _)
      · exact hcrit t htmem a hold haid
    · rw [if_pos hc] at htmem
      rcases List.mem_append.mp htmem with htold | htnew
      · rcases hamem2 with rfl | hold
        · rw [hna] at haid
          simp only at haid
          exact absurd (haid ▸ ht t htold) (lt_irrefl _)
        · exact hcrit t htold a hold haid
      · have htid : t.alertId = st.nextId := by
          rcases List.mem_singleton.mp htnew with rfl
          rfl
        rcases hamem2 with rfl | hold
        · rw [hna]
          simpa using hc
        · have : a.id < st.nextId := ha a hold
          omega
  · intro t l a hal haid
    have h2 : (if a.id = t.alertId then { a with dismissed := true } else a) ∈
        l.map fun x => if x.id = t.alertId then { x with dismissed := true } else x :=
      List.mem_map_of_mem _ hal
    rw [if_pos haid] at h2
    exact h2
  · intro l a
    simp [undismissedAlerts, List.mem_filter]

/-- Witness for C7: the fresh-id conjunct at a concrete empty state. -/
theorem c7_alert_lifecycle_witness :
    (addAlert 0
      { type := AlertKind.newWarning, severity := Severity.info,
        title := "t", message := "m", eventId := none }
      { activeAlerts := [], nextId := 0, timers := [] }).2.id ∉
      (([] : List Alert).map fun a => a.id) :=
  (c7_alert_lifecycle 0
    { type := AlertKind.newWarning, severity := Severity.info,
      title := "t", message := "m", eventId := none }
    { activeAlerts := [], nextId := 0, timers := [] }).1
    (by intro a ha; cases ha)

/-- The per-hazard fingerprint memory `previousEventsRef` (a JavaScript Map
from event id to the last seen updated stamp), as an association list. -/
abbrev FingerprintMap := List (Nat × String)

/-- JavaScript `map.get(k)`. -/
def mapGet (m : FingerprintMap) (k : Nat) : Option String :=
  match m with
  | [] => none
  | (k2, v) :: t => if k2 = k then some v else mapGet t k

/-- JavaScript `map.set(k, v)`. -/
def mapSet (m : FingerprintMap) (k : Nat) (v : String) : FingerprintMap :=
  match m with
  | [] => [(k, v)]
  | (k2, v2) :: t => if k2 = k then (k2, v) :: t else (k2, v2) :: mapSet t k v

theorem mapGet_mapSet_same (m : FingerprintMap) (k : Nat) (v : String) :
    mapGet (mapSet m k v) k = some v := by
  induction m with
  | nil => simp [mapGet, mapSet]
  | cons h t ih =>
    obtain ⟨k2, v2⟩ := h
    by_cases hk : k2 = k
    · simp [mapGet, mapSet, hk]
    · simp [mapGet, mapSet, hk, ih]

theorem mapGet_mapSet_other (m : FingerprintMap) (k k2 : Nat) (v : String)
    (hne : k2 ≠ k) : mapGet (mapSet m k2 v) k = mapGet m k := by
  induction m with
  | nil => simp [mapGet, mapSet, hne]
  | cons h t ih =>
    obtain ⟨k3, v3⟩ := h
    by_cases hk : k3 = k2
    · subst hk
      simp [mapGet, mapSet, hne]
    · by_cases hk2 : k3 = k <;>
        simp [mapGet, mapSet, hk, hk2, hne, Ne.symm hne, ih]

/-- JavaScript falsiness of an optional string: both a missing value and
the empty string are falsy. -/
def jsFalsyStr (s : Option String) : Bool :=
  match s with
  | none => true
  | some v => decide (v = "")

/-- Loop body of the change-detection effect in `useAlerts` for one event:
the updated fingerprint memory and the alert emitted, if any. The
new-to-the-engine test is the falsiness test of the source, so a stored
empty-string fingerprint also counts as new. -/
def checkEvent (mem : FingerprintMap) (event : EmergencyEvent) :
    FingerprintMap × Option AlertSpec :=
  let prevUpdated := mapGet mem event.id
  let currentUpdated := event.updated
  let emitted : Option AlertSpec :=
    if jsFalsyStr prevUpdated then
      let action := jsToLower (event.action.getD "")
      if jsIncludes action "shelter" || jsIncludes action "leave" then
        some { type := AlertKind.newWarning,
               severity := if jsIncludes action "shelter" then Severity.critical
                 else Severity.warning,
               title := "New " ++ (if jsIncludes action "shelter" then
                 "Shelter In Place" else "Evacuation") ++ " Warning",
               message := event.name ++ ": " ++ event.location,
               eventId := some event.id }
      else none
    else if prevUpdated ≠ some currentUpdated then
      some { type := AlertKind.zoneChange, severity := Severity.info,
             title := "Warning Updated",
             message := event.name ++ " has been updated",
             eventId := some event.id }
    else none
  (mapSet mem event.id currentUpdated, emitted)

/-- The change-detection effect over the whole event list, threading the
fingerprint memory and collecting emitted alerts in order. -/
def checkEvents (mem : FingerprintMap) : List EmergencyEvent → FingerprintMap × List AlertSpec
  | [] => (mem, [])
  | e :: rest =>
    let step := checkEvent mem e
    let next := checkEvents step.1 rest
    (next.1, step.2.toList ++ next.2)

/-- A concrete event whose updated stamp is the empty string. -/
def emptyStampEvent : EmergencyEvent where
  id := 2
  updated := ""
  name := "Fire B"
  location := "Elsewhere"
  action := some "Leave now"
  polygon := none

/-- The same event after its feed record changes to a non-empty stamp. -/
def staleStampEvent : EmergencyEvent :=
  { emptyStampEvent with updated := "t2" }

/-- Counterexample to C6 as stated: with the fingerprint of id 2 stored as
the empty string and a current fingerprint that differs, the claim demands
an info zone-change alert, but the program takes the falsy new-event branch
and emits a warning new-warning alert instead. -/
theorem c6_counterexample :
    (checkEvent [(2, "")] staleStampEvent).2 ≠ some
      { type := AlertKind.zoneChange, severity := Severity.info,
        title := "Warning Updated",
        message := "Fire B" ++ " has been updated",
        eventId := some 2 } := by
  decide

/-- C6 (amended): the new-to-the-engine test is the falsiness test of the
source, so a hazard whose id is absent from memory or whose stored
fingerprint is the empty string counts as new: with actionable text it
emits one new-warning alert (critical severity for shelter, warning
otherwise), with no actionable text nothing; a zone-change info alert
fires only when the stored fingerprint is non-empty and differs from the
current one; and in every case the stored fingerprint is overwritten with
the current one. -/
theorem c6_change_detection (mem : FingerprintMap) (event : EmergencyEvent) :
    (checkEvent mem event).1 = mapSet mem event.id event.updated ∧
    (jsFalsyStr (mapGet mem event.id) = true →
      (jsIncludes (jsToLower (event.action.getD "")) "shelter" ||
        jsIncludes (jsToLower (event.action.getD "")) "leave") = true →
      (checkEvent mem event).2 = some
        { type := AlertKind.newWarning,
          severity := if jsIncludes (jsToLower (event.action.getD "")) "shelter"
            then Severity.critical else Severity.warning,
          title := "New " ++ (if jsIncludes (jsToLower (event.action.getD "")) "shelter"
            then "Shelter In Place" else "Evacuation") ++ " Warning",
          message := event.name ++ ": " ++ event.location,
          eventId := some event.id }) ∧
    (jsFalsyStr (mapGet mem event.id) = true →
      (jsIncludes (jsToLower (event.action.getD "")) "shelter" ||
        jsIncludes (jsToLower (event.action.getD "")) "leave") = false →
      (checkEvent mem event).2 = none) ∧
    (∀ prev, mapGet mem event.id = some prev → prev ≠ "" →
      prev ≠ event.updated →
      (checkEvent mem event).2 = some
        { type := AlertKind.zoneChange, severity := Severity.info,
          title := "Warning Updated",
          message := event.name ++ " has been updated",
          eventId := some event.id }) ∧
    (∀ prev, mapGet mem event.id = some prev → prev ≠ "" →
      prev = event.updated →
      (checkEvent mem event).2 = none) := by
  refine ⟨rfl, ?_, ?_, ?_, ?_⟩
  · intro h1 h2
    simp [checkEvent, h1, h2]
  · intro h1 h2
    simp [checkEvent, h1, h2]
  · intro prev h1 h2 h3
    simp [checkEvent, jsFalsyStr, h1, h2, h3]
  · intro prev h1 h2 h3
    subst h3
    simp [checkEvent, jsFalsyStr, h1, h2]

/-- Witness for C6: a fresh hazard whose action is Leave Immediately yields
one warning-severity new-warning alert referencing it. -/
theorem c6_change_detection_witness :
    (checkEvent [] sampleEvent).2 = some
      { type := AlertKind.newWarning, severity := Severity.warning,
        title := "New Evacuation Warning",
        message := "Fire A" ++ ": " ++ "Somewhere",
        eventId := some 1 } :=
  Eq.trans ((c6_change_detection [] sampleEvent).2.1 rfl (by decide)) (by decide)

/-- Snapshot stored in `previousNearestRef`. -/
structure NearestSnapshot where
  eventId : Nat
  distance : Dist
  isInside : Bool
deriving DecidableEq

/-- Warning proximity threshold in km from `src/hooks/use-alerts.ts`. -/
def DANGER_THRESHOLD : Dist := 5

/-- Critical proximity threshold in km. -/
def CRITICAL_THRESHOLD : Dist := 2

/-- JavaScript `Math.round` on a rational. -/
def jsRound (q : ℚ) : ℤ := ⌊q + 1 / 2⌋

/-- Function `formatDistance` from `src/lib/geo-utils.ts` on a finite
distance in km. -/
def formatDistanceQ (km : ℚ) : String :=
  if km < 1 then toString (jsRound (km * 1000)) ++ "m"
  else if km < 10 then
    toString (jsRound (km * 10) / 10) ++ "." ++
      toString (jsRound (km * 10) % 10) ++ "km"
  else toString (jsRound km) ++ "km"

/-- formatDistance lifted to a possibly-infinite distance. -/
def formatDistance (km : Dist) : String :=
  if km = ⊤ then "Infinitykm" else formatDistanceQ (km.untop' 0)

/-- The entered-zone alert payload built by the proximity effect. -/
def enteredZoneAlert (nearestDanger : ProximityResult) : AlertSpec where
  type := AlertKind.proximity
  severity := Severity.critical
  title := "⚠️ YOU ARE IN A DANGER ZONE"
  message := "You are inside: " ++ nearestDanger.event.name ++ ". " ++
    jsOrDefault nearestDanger.event.action "Take action immediately!"
  eventId := some nearestDanger.event.id

/-- The crossed-critical alert payload. -/
def crossedCriticalAlert (nearestDanger : ProximityResult) : AlertSpec where
  type := AlertKind.proximity
  severity := Severity.critical
  title := "Danger Zone Very Close"
  message := nearestDanger.event.name ++ " is only " ++
    formatDistance nearestDanger.distance ++ " away!"
  eventId := some nearestDanger.event.id

/-- The new-nearest-in-range alert payload. -/
def newNearestAlert (nearestDanger : ProximityResult) : AlertSpec where
  type := AlertKind.proximity
  severity := Severity.warning
  title := "New Nearby Warning"
  message := nearestDanger.event.name ++ " is now the closest at " ++
    formatDistance nearestDanger.distance
  eventId := some nearestDanger.event.id

/-- The proximity effect body in `useAlerts` once ready: from the location,
events and stored snapshot, the new snapshot and the emitted alerts. -/
def proximityCheck (T : Turf) (userLocation : Option Point)
    (events : List EmergencyEvent) (prev : Option NearestSnapshot) :
    Option NearestSnapshot × List AlertSpec :=
  match userLocation with
  | none => (prev, [])
  | some loc =>
    if events.length = 0 then (prev, [])
    else
      match getNearestDanger T loc events with
      | none => (prev, [])
      | some nearestDanger =>
        let enteredZone := nearestDanger.isInside &&
          !(prev.elim false fun p => p.isInside)
        let crossedCritical := decide (nearestDanger.distance ≤ CRITICAL_THRESHOLD) &&
          decide (CRITICAL_THRESHOLD < prev.elim ⊤ fun p => p.distance)
        let eventChanged := prev.elim true fun p =>
          decide (p.eventId ≠ nearestDanger.event.id)
        let emitted : List AlertSpec :=
          if enteredZone then [enteredZoneAlert nearestDanger]
          else if crossedCritical && !nearestDanger.isInside then
            [crossedCriticalAlert nearestDanger]
          else if eventChanged && decide (nearestDanger.distance ≤ DANGER_THRESHOLD) then
            [newNearestAlert nearestDanger]
          else []
        (some { eventId := nearestDanger.event.id,
                distance := nearestDanger.distance,
                isInside := nearestDanger.isInside }, emitted)

theorem ifChain_length_le_one (b1 b2 b3 : Bool) (x y z : AlertSpec) :
    (if b1 then [x] else if b2 then [y] else if b3 then [z] else
      ([] : List AlertSpec)).length ≤ 1 := by
  cases b1 <;> cases b2 <;> cases b3 <;> simp

/-- C1: on a tick after ready with a location present, a non-empty hazard
set and a nearest result, the proximity watch emits at most one alert,
selected by the priority entered-zone, then crossed-critical, then
new-nearest-in-range, and otherwise nothing. -/
theorem c1_proximity_priority (T : Turf) (loc : Point)
    (events : List EmergencyEvent) (prev : Option NearestSnapshot)
    (nd : ProximityResult) (hne : events.length ≠ 0)
    (hnd : getNearestDanger T loc events = some nd) :
    (proximityCheck T (some loc) events prev).2 =
      (if nd.isInside && prev.elim true (fun p => !p.isInside) then
        [enteredZoneAlert nd]
      else if !nd.isInside && decide (nd.distance ≤ 2) &&
          decide ((2 : Dist) < prev.elim ⊤ fun p => p.distance) then
        [crossedCriticalAlert nd]
      else if (prev.elim true fun p => decide (p.eventId ≠ nd.event.id)) &&
          decide (nd.distance ≤ 5) then
        [newNearestAlert nd]
      else []) ∧
    (proximityCheck T (some loc) events prev).2.length ≤ 1 := by
  have hcore : (proximityCheck T (some loc) events prev).2 =
      (if nd.isInside && !(prev.elim false fun p => p.isInside) then
        [enteredZoneAlert nd]
      else if (decide (nd.distance ≤ CRITICAL_THRESHOLD) &&
          decide (CRITICAL_THRESHOLD < prev.elim ⊤ fun p => p.distance)) &&
          !nd.isInside then
        [crossedCriticalAlert nd]
      else if (prev.elim true fun p => decide (p.eventId ≠ nd.event.id)) &&
          decide (nd.distance ≤ DANGER_THRESHOLD) then
        [newNearestAlert nd]
      else []) := by
    simp [proximityCheck, hne, hnd]
  have hshape : (if nd.isInside && !(prev.elim false fun p => p.isInside) then
        [enteredZoneAlert nd]
      else if (decide (nd.distance ≤ CRITICAL_THRESHOLD) &&
          decide (CRITICAL_THRESHOLD < prev.elim ⊤ fun p => p.distance)) &&
          !nd.isInside then
        [crossedCriticalAlert nd]
      else if (prev.elim true fun p => decide (p.eventId ≠ nd.event.id)) &&
          decide (nd.distance ≤ DANGER_THRESHOLD) then
        [newNearestAlert nd]
      else []) =
      (if nd.isInside && prev.elim true (fun p => !p.isInside) then
        [enteredZoneAlert nd]
      else if !nd.isInside && decide (nd.distance ≤ 2) &&
          decide ((2 : Dist) < prev.elim ⊤ fun p => p.distance) then
        [crossedCriticalAlert nd]
      else if (prev.elim true fun p => decide (p.eventId ≠ nd.event.id)) &&
          decide (nd.distance ≤ 5) then
        [newNearestAlert nd]
      else []) := by
    cases prev with
    | none =>
      cases hb : nd.isInside <;>
        simp [CRITICAL_THRESHOLD, DANGER_THRESHOLD, Option.elim, hb]
    | some p =>
      cases hb : nd.isInside <;>
        simp [CRITICAL_THRESHOLD, DANGER_THRESHOLD, Option.elim, hb]
  refine ⟨hcore.trans hshape, ?_⟩
  rw [hcore]
  apply ifChain_length_le_one

/-- Witness for C1 at a concrete input with no stored snapshot. -/
theorem c1_proximity_priority_witness :
    (proximityCheck turfModel (some (0, 0)) [sampleEvent] none).2.length ≤ 1 :=
  (c1_proximity_priority turfModel (0, 0) [sampleEvent] none
    { event := sampleEvent, distance := ((0 : ℚ) : Dist), isInside := false,
      actionPriority := 2 } (by decide) (by decide)).2

theorem checkEvents_fingerprints_cons (mem : FingerprintMap)
    (e : EmergencyEvent) (rest : List EmergencyEvent) :
    (checkEvents mem (e :: rest)).1 =
      (checkEvents (mapSet mem e.id e.updated) rest).1 := rfl

theorem checkEvents_mapGet_notMem (events : List EmergencyEvent)
    (mem : FingerprintMap) (k : Nat) (hk : k ∉ events.map fun e => e.id) :
    mapGet (checkEvents mem events).1 k = mapGet mem k := by
  induction events generalizing mem with
  | nil => rfl
  | cons e rest ih =>
    rw [checkEvents_fingerprints_cons]
    have hk2 : k ∉ rest.map fun e => e.id := fun h =>
      hk (List.mem_cons.mpr (Or.inr h))
    have hk1 : e.id ≠ k := fun h =>
      hk (List.mem_cons.mpr (Or.inl h.symm))
    rw [ih (mapSet mem e.id e.updated) hk2]
    exact mapGet_mapSet_other mem k e.id e.updated hk1

theorem checkEvents_mapGet_mem (events : List EmergencyEvent)
    (mem : FingerprintMap) (hnodup : (events.map fun e => e.id).Nodup) :
    ∀ e ∈ events, mapGet (checkEvents mem events).1 e.id = some e.updated := by
  induction events generalizing mem with
  | nil => intro e he; cases he
  | cons x rest ih =>
    have hx : x.id ∉ rest.map fun e => e.id := by
      have := List.nodup_cons.mp hnodup
      exact this.1
    have hrest : (rest.map fun e => e.id).Nodup := (List.nodup_cons.mp hnodup).2
    intro e he
    rcases List.mem_cons.mp he with rfl | hmem
    · rw [checkEvents_fingerprints_cons,
        checkEvents_mapGet_notMem rest _ e.id hx]
      exact mapGet_mapSet_same mem e.id e.updated
    · rw [checkEvents_fingerprints_cons]
      exact ih (mapSet mem x.id x.updated) hrest e hmem

theorem checkEvents_quiet (events : List EmergencyEvent) (mem : FingerprintMap)
    (hmem : ∀ e ∈ events, mapGet mem e.id = some e.updated)
    (hupd : ∀ e ∈ events, e.updated ≠ "") :
    (checkEvents mem events).2 = [] := by
  induction events generalizing mem with
  | nil => rfl
  | cons x rest ih =>
    have hx : mapGet mem x.id = some x.updated := hmem x (List.mem_cons_self x rest)
    have hxu : x.updated ≠ "" := hupd x (List.mem_cons_self x rest)
    have hstep : (checkEvent mem x).2 = none := by
      simp [checkEvent, jsFalsyStr, hx, hxu]
    have hrest : ∀ e ∈ rest, mapGet (mapSet mem x.id x.updated) e.id = some e.updated := by
      intro e he
      by_cases hid : x.id = e.id
      · rw [← hid, mapGet_mapSet_same]
        have h1 := hmem e (List.mem_cons.mpr (Or.inr he))
        rw [← hid] at h1
        rw [hx] at h1
        exact congrArg some (Option.some.inj h1)
      · rw [mapGet_mapSet_other mem e.id x.id x.updated hid]
        exact hmem e (List.mem_cons.mpr (Or.inr he))
    have hrupd : ∀ e ∈ rest, e.updated ≠ "" := fun e he =>
      hupd e (List.mem_cons.mpr (Or.inr he))
    show ((checkEvent mem x).2.toList ++ (checkEvents (checkEvent mem x).1 rest).2) = []
    rw [hstep]
    have : (checkEvent mem x).1 = mapSet mem x.id x.updated := rfl
    rw [this, ih (mapSet mem x.id x.updated) hrest hrupd]
    rfl

theorem decide_le_lt_false (d c : Dist) :
    (decide (d ≤ c) && decide (c < d)) = false := by
  rcases le_or_lt d c with h | h
  · simp [not_lt.mpr h]
  · simp [not_le.mpr h]

theorem proximityCheck_replay (T : Turf) (loc : Option Point)
    (events : List EmergencyEvent) (prev : Option NearestSnapshot) :
    (proximityCheck T loc events (proximityCheck T loc events prev).1).2 = [] := by
  match loc with
  | none => rfl
  | some l =>
    by_cases hne : events.length = 0
    · simp [proximityCheck, hne]
    · match hnd : getNearestDanger T l events with
      | none => simp [proximityCheck, hne, hnd]
      | some nd =>
        have hfst : (proximityCheck T (some l) events prev).1 =
            some { eventId := nd.event.id, distance := nd.distance,
                   isInside := nd.isInside } := by
          simp [proximityCheck, hne, hnd]
        rw [hfst]
        simp [proximityCheck, hne, hnd, Option.elim, decide_le_lt_false]

/-- The memory owned by the ready alert engine: the per-hazard fingerprint
map and the previous nearest snapshot. -/
structure EngineMemory where
  fingerprints : FingerprintMap
  nearest : Option NearestSnapshot
deriving DecidableEq

/-- One full evaluation tick of the ready alert engine: the change-detection
effect followed by the proximity effect, both over the same hazard set and
location, with the memory they maintain. -/
def engineTick (T : Turf) (userLocation : Option Point)
    (events : List EmergencyEvent) (mem : EngineMemory) :
    EngineMemory × List AlertSpec :=
  let changes := checkEvents mem.fingerprints events
  let prox := proximityCheck T userLocation events mem.nearest
  ({ fingerprints := changes.1, nearest := prox.1 }, changes.2 ++ prox.2)

/-- Counterexample to C3 as stated: a hazard whose updated stamp is the
empty string stays falsy after being stored, so the engine treats it as
new on every tick and the second tick over the same pair is not quiet. -/
theorem c3_counterexample :
    (engineTick turfModel none [emptyStampEvent]
      (engineTick turfModel none [emptyStampEvent]
        { fingerprints := [], nearest := none }).1).2 ≠ [] := by
  decide

/-- C3 (amended): replaying the same hazard set and location on the next
tick emits zero alerts, provided every hazard carries a non-empty updated
fingerprint (a stored empty stamp is falsy and re-fires the new-event
branch); the first tick unconditionally overwrites the fingerprint map and
the nearest snapshot with the current values. -/
theorem c3_replay_idempotent (T : Turf) (loc : Option Point)
    (events : List EmergencyEvent) (mem : EngineMemory)
    (hnodup : (events.map fun e => e.id).Nodup)
    (hupd : ∀ e ∈ events, e.updated ≠ "") :
    (engineTick T loc events (engineTick T loc events mem).1).2 = [] ∧
    (∀ e ∈ events,
      mapGet (engineTick T loc events mem).1.fingerprints e.id = some e.updated) ∧
    (∀ (l : Point) (nd : ProximityResult), loc = some l → events.length ≠ 0 →
      getNearestDanger T l events = some nd →
      (engineTick T loc events mem).1.nearest =
        some { eventId := nd.event.id, distance := nd.distance,
               isInside := nd.isInside }) := by
  have hfp : (engineTick T loc events mem).1.fingerprints =
      (checkEvents mem.fingerprints events).1 := rfl
  have hnr : (engineTick T loc events mem).1.nearest =
      (proximityCheck T loc events mem.nearest).1 := rfl
  refine ⟨?_, ?_, ?_⟩
  · show ((checkEvents (engineTick T loc events mem).1.fingerprints events).2 ++
      (proximityCheck T loc events (engineTick T loc events mem).1.nearest).2) = []
    rw [hfp, hnr]
    rw [checkEvents_quiet events _
      (checkEvents_mapGet_mem events mem.fingerprints hnodup) hupd]
    rw [proximityCheck_replay]
    rfl
  · intro e he
    rw [hfp]
    exact checkEvents_mapGet_mem events mem.fingerprints hnodup e he
  · intro l nd hloc hne hnd
    rw [hnr, hloc]
    simp [proximityCheck, hne, hnd]

/-- Witness for C3 at a concrete input. -/
theorem c3_replay_idempotent_witness :
    (engineTick turfModel (some (0, 0)) [sampleEvent]
      (engineTick turfModel (some (0, 0)) [sampleEvent]
        { fingerprints := [], nearest := none }).1).2 = [] :=
  (c3_replay_idempotent turfModel (some (0, 0)) [sampleEvent]
    { fingerprints := [], nearest := none } (by decide) (by decide)).1

/-- The observable outcome of one `fetch` attempt: a network failure or an
HTTP response with its ok flag and status. -/
inductive AttemptOutcome
  | netError (msg : String)
  | httpResponse (ok : Bool) (status : Nat)
deriving DecidableEq

/-- The try-block of `fetchWithRetry` for one attempt: a network error and a
non-ok response both raise (a non-2xx response is converted to a thrown
error), while an ok response is returned. -/
def attemptResult : AttemptOutcome → Except String Nat
  | AttemptOutcome.netError msg => Except.error msg
  | AttemptOutcome.httpResponse ok status =>
    if ok then Except.ok status else Except.error ("HTTP " ++ toString status)

/-- The retry loop of `fetchWithRetry` from attempt index `i` with
`remaining` attempts allowed: on a failure that is not the last attempt it
waits `1000 * (i + 1)` ms and retries. Returns the outcome, the number of
attempts made, and the backoff delays awaited in milliseconds. -/
def fetchLoop (oracle : Nat → AttemptOutcome) (i : Nat) :
    Nat → Except String Nat × Nat × List Nat
  | 0 => (Except.error "Fetch failed after retries", 0, [])
  | remaining + 1 =>
    match attemptResult (oracle i) with
    | Except.ok response => (Except.ok response, 1, [])
    | Except.error err =>
      if remaining = 0 then (Except.error err, 1, [])
      else
        let next := fetchLoop oracle (i + 1) remaining
        (next.1, next.2.1 + 1, 1000 * (i + 1) :: next.2.2)

/-- Function `fetchWithRetry` from `src/lib/vic-emergency.ts`, with the
behavior of `fetch` on each attempt supplied as an oracle. -/
def fetchWithRetry (oracle : Nat → AttemptOutcome) (retries : Nat) :
    Except String Nat × Nat × List Nat :=
  fetchLoop oracle 0 retries

/-- C5: with the budget of 3, fetchWithRetry makes at most 3 attempts,
waits linearly growing delays between failed attempts, returns the first
success (in particular two failures then a success surface that success
with no error), treats a non-ok response exactly like a network error, and
surfaces an error only when all 3 attempts failed. -/
theorem c5_fetch_retry (oracle : Nat → AttemptOutcome) :
    (fetchWithRetry oracle 3).2.1 ≤ 3 ∧
    (fetchWithRetry oracle 3).2.2 =
      (List.range ((fetchWithRetry oracle 3).2.1 - 1)).map (fun k => 1000 * (k + 1)) ∧
    (∀ r, attemptResult (oracle 0) = Except.ok r →
      fetchWithRetry oracle 3 = (Except.ok r, 1, [])) ∧
    (∀ e0 e1 r, attemptResult (oracle 0) = Except.error e0 →
      attemptResult (oracle 1) = Except.error e1 →
      attemptResult (oracle 2) = Except.ok r →
      (fetchWithRetry oracle 3).1 = Except.ok r ∧
      (fetchWithRetry oracle 3).2.1 = 3 ∧
      (fetchWithRetry oracle 3).2.2 = [1000, 2000]) ∧
    (∀ err, (fetchWithRetry oracle 3).1 = Except.error err →
      ∀ j < 3, ∃ m, attemptResult (oracle j) = Except.error m) ∧
    (∀ s, ∃ m, attemptResult (AttemptOutcome.httpResponse false s) = Except.error m) ∧
    (∀ oracle2 : Nat → AttemptOutcome,
      (∀ j, attemptResult (oracle j) = attemptResult (oracle2 j)) →
      fetchWithRetry oracle 3 = fetchWithRetry oracle2 3) := by
  have hunfold : ∀ o : Nat → AttemptOutcome, fetchWithRetry o 3 =
      (match attemptResult (o 0) with
      | Except.ok r => (Except.ok r, 1, [])
      | Except.error _ =>
        match attemptResult (o 1) with
        | Except.ok r => (Except.ok r, 2, [1000])
        | Except.error _ =>
          match attemptResult (o 2) with
          | Except.ok r => (Except.ok r, 3, [1000, 2000])
          | Except.error e => (Except.error e, 3, [1000, 2000])) := by
    intro o
    rcases h0 : attemptResult (o 0) with e0 | r0
    · rcases h1 : attemptResult (o 1) with e1 | r1
      · rcases h2 : attemptResult (o 2) with e2 | r2
        · simp [fetchWithRetry, fetchLoop, h0, h1, h2]
        · simp [fetchWithRetry, fetchLoop, h0, h1, h2]
      · simp [fetchWithRetry, fetchLoop, h0, h1]
    · simp [fetchWithRetry, fetchLoop, h0]
  refine ⟨?_, ?_, ?_, ?_, ?_, ?_, ?_⟩
  · rw [hunfold oracle]
    rcases h0 : attemptResult (oracle 0) with e0 | r0 <;>
      rcases h1 : attemptResult (oracle 1) with e1 | r1 <;>
      rcases h2 : attemptResult (oracle 2) with e2 | r2 <;> simp
  · rw [hunfold oracle]
    rcases h0 : attemptResult (oracle 0) with e0 | r0 <;>
      rcases h1 : attemptResult (oracle 1) with e1 | r1 <;>
      rcases h2 : attemptResult (oracle 2) with e2 | r2 <;>
      simp [List.range_succ]
  · intro r h0
    rw [hunfold oracle, h0]
  · intro e0 e1 r h0 h1 h2
    rw [hunfold oracle, h0, h1, h2]
    exact ⟨rfl, rfl, rfl⟩
  · intro err herr j hj
    rw [hunfold oracle] at herr
    rcases h0 : attemptResult (oracle 0) with e0 | r0 <;> rw [h0] at herr
    · rcases h1 : attemptResult (oracle 1) with e1 | r1 <;> rw [h1] at herr
      · rcases h2 : attemptResult (oracle 2) with e2 | r2 <;> rw [h2] at herr
        · interval_cases j
          · exact ⟨e0, h0⟩
          · exact ⟨e1, h1⟩
          · exact ⟨e2, h2⟩
        · simp at herr
      · simp at herr
    · simp at herr
  · intro s
    exact ⟨"HTTP " ++ toString s, rfl⟩
  · intro oracle2 h
    rw [hunfold oracle, hunfold oracle2, h 0, h 1, h 2]

/-- A concrete fetch oracle: a network failure, then a non-ok response,
then a success. -/
def oracleTwoFailures : Nat → AttemptOutcome
  | 0 => AttemptOutcome.netError "connection reset"
  | 1 => AttemptOutcome.httpResponse false 500
  | _ => AttemptOutcome.httpResponse true 200

/-- Witness for C5: two consecutive failures then a success return the
success with three attempts made and linear backoff delays. -/
theorem c5_fetch_retry_witness :
    (fetchWithRetry oracleTwoFailures 3).1 = Except.ok 200 ∧
    (fetchWithRetry oracleTwoFailures 3).2.1 = 3 ∧
    (fetchWithRetry oracleTwoFailures 3).2.2 = [1000, 2000] :=
  (c5_fetch_retry oracleTwoFailures).2.2.2.1 "connection reset"
    ("HTTP " ++ toString 500) 200 rfl rfl rfl

/-- State of `useFireEvents` (the polling driver), together with the alert
list it never touches and the log of surfaced errors. -/
structure FireState where
  events : List EmergencyEvent
  lastHash : Option String
  lastUpdated : Option Nat
  alerts : List Alert
  errorLog : List String
deriving DecidableEq

/-- One poll tick, `checkForUpdates` in `useFireEvents`: fetch the delta
token and, when it changed, store it and then fetch the full event set. A
terminal fetch failure is logged and ends the tick; the new token is stored
before the event fetch is awaited. -/
def checkForUpdates (st : FireState) (now : Nat)
    (deltaRes : Except String String)
    (eventsRes : Except String (List EmergencyEvent)) : FireState :=
  match deltaRes with
  | Except.error e =>
    { st with errorLog := st.errorLog ++ ["Delta check failed: " ++ e] }
  | Except.ok newHash =>
    if some newHash ≠ st.lastHash then
      match eventsRes with
      | Except.ok newEvents =>
        { st with lastHash := some newHash, events := newEvents,
                  lastUpdated := some now }
      | Except.error e =>
        { st with lastHash := some newHash,
                  errorLog := st.errorLog ++ ["Delta check failed: " ++ e] }
    else st

/-- Input of one timer tick of the polling driver. -/
structure TickInput where
  now : Nat
  deltaRes : Except String String
  eventsRes : Except String (List EmergencyEvent)

/-- The periodic polling driver: one `checkForUpdates` per timer tick; a
failed tick does not stop the following ones. -/
def pollDriver (st : FireState) : List TickInput → FireState
  | [] => st
  | t :: rest => pollDriver (checkForUpdates st t.now t.deltaRes t.eventsRes) rest

/-- A concrete polling state with a cached hazard set and token. -/
def fireStateCex : FireState where
  events := [sampleEvent]
  lastHash := some "a"
  lastUpdated := some 0
  alerts := []
  errorLog := []

/-- Counterexample to C9 as stated: when the version-token fetch succeeds
with a changed token and the event-set fetch then fails terminally, the
stored version token is not unchanged. -/
theorem c9_counterexample :
    (checkForUpdates fireStateCex 5 (Except.ok "b")
      (Except.error "network down")).lastHash ≠ fireStateCex.lastHash := by
  decide

/-- C9 (amended): a terminal version-token failure leaves the cached
events, token, timestamp and alert state unchanged and only appends the
error to the log; a terminal event-set failure after a changed token also
leaves events, timestamp and alerts unchanged and logs the error, but the
stored token has already advanced to the newly observed one; and the
driver keeps ticking: ticks compose sequentially and a later successful
tick still refreshes the cached event set. -/
theorem c9_fetch_failure_degraded (st : FireState) (now : Nat) :
    (∀ e eventsRes,
      (checkForUpdates st now (Except.error e) eventsRes).events = st.events ∧
      (checkForUpdates st now (Except.error e) eventsRes).lastHash = st.lastHash ∧
      (checkForUpdates st now (Except.error e) eventsRes).lastUpdated = st.lastUpdated ∧
      (checkForUpdates st now (Except.error e) eventsRes).alerts = st.alerts ∧
      (checkForUpdates st now (Except.error e) eventsRes).errorLog =
        st.errorLog ++ ["Delta check failed: " ++ e]) ∧
    (∀ h e, some h ≠ st.lastHash →
      (checkForUpdates st now (Except.ok h) (Except.error e)).events = st.events ∧
      (checkForUpdates st now (Except.ok h) (Except.error e)).lastUpdated =
        st.lastUpdated ∧
      (checkForUpdates st now (Except.ok h) (Except.error e)).alerts = st.alerts ∧
      (checkForUpdates st now (Except.ok h) (Except.error e)).lastHash = some h ∧
      (checkForUpdates st now (Except.ok h) (Except.error e)).errorLog =
        st.errorLog ++ ["Delta check failed: " ++ e]) ∧
    (∀ t ts, pollDriver st (t :: ts) =
      pollDriver (checkForUpdates st t.now t.deltaRes t.eventsRes) ts) ∧
    (∀ (n1 : Nat) (e1 : String) (er : Except String (List EmergencyEvent))
      (n2 : Nat) (h : String) (evs : List EmergencyEvent),
      some h ≠ st.lastHash →
      (pollDriver st [{ now := n1, deltaRes := Except.error e1, eventsRes := er },
        { now := n2, deltaRes := Except.ok h, eventsRes := Except.ok evs }]).events =
        evs) := by
  refine ⟨?_, ?_, fun t ts => rfl, ?_⟩
  · intro e eventsRes
    refine ⟨rfl, rfl, rfl, rfl, rfl⟩
  · intro h e hne
    simp [checkForUpdates, hne]
  · intro n1 e1 er n2 h evs hne
    show (checkForUpdates (checkForUpdates st n1 (Except.error e1) er) n2
      (Except.ok h) (Except.ok evs)).events = evs
    simp [checkForUpdates, hne]

/-- Witness for C9 (amended): the event-set-failure conjunct at the
concrete counterexample state. -/
theorem c9_fetch_failure_degraded_witness :
    (checkForUpdates fireStateCex 5 (Except.ok "b")
      (Except.error "network down")).events = fireStateCex.events :=
  ((c9_fetch_failure_degraded fireStateCex 5).2.1 "b" "network down"
    (by decide)).1

end Firewatch
